import Mathlib

/-!
Shallow embedding of the `tauri-plugin-native-pdf-print` core
(`src/tauri-plugin-native-pdf-print/src/{lib,error,windows,linux}.rs`).

Strings from the Rust side are modelled as `List Char`; bytes as `Nat`
constrained to `< 256`; machine floats (`f32`) as exact rationals `ℚ` with
explicit round-half-away-from-zero rounding; `i32`/`u32` integer arithmetic
as `ℤ`/`ℕ` (with truncating division `Int.tdiv` where Rust `/` on `i32`
truncates); OS interaction (printer enumeration, spooler subprocesses,
the filesystem, the clock) as explicit oracle/state parameters.
-/

/-! ## Data model (`lib.rs`, `error.rs`) -/

/-- `PrintOptions` from `lib.rs`. -/
structure PrintOptions where
  path : List Char
  printer_name : Option (List Char)
  job_name : Option (List Char)
  copies : Option Nat
  duplex : Option (List Char)
  paper_size : Option (List Char)
  remove_after_print : Bool
deriving DecidableEq, Repr

/-- `PrintBytesOptions` from `lib.rs`: `data_base64` replaces `path`. -/
structure PrintBytesOptions where
  data_base64 : List Char
  printer_name : Option (List Char)
  job_name : Option (List Char)
  copies : Option Nat
  duplex : Option (List Char)
  paper_size : Option (List Char)
  remove_after_print : Bool
deriving DecidableEq, Repr

/-- `PrintResult` from `lib.rs`. -/
structure PrintResult where
  job_id : Option Nat
  printer : List Char
  message : List Char
deriving DecidableEq, Repr

/-- `PrinterInfo` from `lib.rs`. -/
structure PrinterInfo where
  name : List Char
  is_default : Bool
  status : List Char
deriving DecidableEq, Repr

/-- `MediaOption` from `lib.rs`. -/
structure MediaOption where
  id : List Char
  label : List Char
  is_default : Bool
deriving DecidableEq, Repr

/-- The `Error` enum from `error.rs`. -/
inductive Error where
  | PrintCommandFailed (msg : List Char)
  | ReadFailed (msg : List Char)
  | WriteFailed (msg : List Char)
  | PrinterLookupFailed (msg : List Char)
  | UnsupportedPlatform
deriving DecidableEq, Repr

/-! ## String helpers shared by the Linux backend embedding -/

/-- ASCII whitespace, as used by Rust `split_whitespace` on ASCII input. -/
def isWs (c : Char) : Bool :=
  c = ' ' || c = '\t' || c = '\n' || c = '\x0b' || c = '\x0c' || c = '\r'

/-- `leadsWith p l` is true when `p` is a leading segment of `l`
(Rust `str::starts_with`). -/
def leadsWith : List Char → List Char → Bool
  | [], _ => true
  | _ :: _, [] => false
  | a :: pa, b :: pb => (a == b) && leadsWith pa pb

/-- `containsSeq p l`: some leading segment of a suffix of `l` is `p`
(Rust `str::contains`). -/
def containsSeq (p : List Char) : List Char → Bool
  | [] => leadsWith p []
  | a :: rest => leadsWith p (a :: rest) || containsSeq p rest

/-- Index of the first occurrence of `p` in `l` (Rust `str::find`). -/
def findSeq (p : List Char) : List Char → Option Nat
  | [] => if leadsWith p [] then some 0 else none
  | a :: rest =>
      if leadsWith p (a :: rest) then some 0
      else (findSeq p rest).map (· + 1)

/-- First whitespace-separated token (Rust `split_whitespace().next()`):
`none` when the input is all whitespace. -/
def splitWsFirst (l : List Char) : Option (List Char) :=
  let t := l.dropWhile isWs
  if t.isEmpty then none else some (t.takeWhile (fun c => !(isWs c)))

/-- The segment after the last `-` (Rust `rsplit("-").next()`); the whole
input when no `-` occurs. -/
def lastSegmentAfterDash (l : List Char) : List Char :=
  ((l.reverse.takeWhile (fun c => !(c == '-'))).reverse)

/-- Rust `str::parse::<u32>()`: an optional leading `+`, then one or more
ASCII digits, value below `2^32`. -/
def parseU32 (l : List Char) : Option Nat :=
  let digits := match l with
    | '+' :: rest => rest
    | _ => l
  if digits.isEmpty then none
  else if digits.all (fun c => c.isDigit) then
    let v := digits.foldl (fun acc c => acc * 10 + (c.toNat - 48)) 0
    if v < 4294967296 then some v else none
  else none

/-! ## Linux backend: `parse_lp_job_id` (`linux.rs`) -/

/-- The fixed marker phrase searched for in the spooler acknowledgment. -/
def lpMarker : List Char := String.toList "request id is "

/-- `parse_lp_job_id` from `linux.rs`: find the marker, take the next
whitespace-delimited token, parse the numeric suffix after its last `-`. -/
def parse_lp_job_id (output : List Char) : Option Nat := do
  let idx ← findSeq lpMarker output
  let remainder := output.drop (idx + lpMarker.length)
  let token ← splitWsFirst remainder
  parseU32 (lastSegmentAfterDash token)

theorem findSeq_eq_none_of_not_containsSeq (p : List Char) :
    ∀ l : List Char, containsSeq p l = false → findSeq p l = none := by
  intro l
  induction l with
  | nil =>
      intro h
      simp only [containsSeq] at h
      simp [findSeq, h]
  | cons a rest ih =>
      intro h
      simp only [containsSeq, Bool.or_eq_false_iff] at h
      simp [findSeq, h.1, ih h.2]

/-- C5: the Linux job-id parser extracts the whitespace-delimited token after
the marker `"request id is "` and returns the numeric suffix after the
token's last hyphen; the concrete spooler acknowledgment
`"request id is HP_LaserJet-142 (1 file(s))"` parses to job id `142`, and an
input lacking the marker parses to `none`. -/
theorem parse_lp_job_id_spec :
    parse_lp_job_id (String.toList "request id is HP_LaserJet-142 (1 file(s))")
      = some 142 ∧
    (∀ out : List Char, containsSeq lpMarker out = false →
      parse_lp_job_id out = none) ∧
    (∀ out idx, findSeq lpMarker out = some idx →
      parse_lp_job_id out =
        (splitWsFirst (out.drop (idx + lpMarker.length))).bind
          (fun token => parseU32 (lastSegmentAfterDash token))) := by
  refine ⟨by decide, ?_, ?_⟩
  · intro out h
    simp [parse_lp_job_id, findSeq_eq_none_of_not_containsSeq lpMarker out h,
      Option.bind]
  · intro out idx h
    simp [parse_lp_job_id, h]

/-- Witness for C5: concrete applications of `parse_lp_job_id_spec`. -/
theorem parse_lp_job_id_spec_witness :
    parse_lp_job_id (String.toList "no acknowledgment here") = none :=
  parse_lp_job_id_spec.2.1 _ (by decide)

/-! ## base64 (the `base64` crate's STANDARD engine: `+/` alphabet,
canonical `=` padding, non-canonical trailing bits rejected) -/

/-- The STANDARD base64 alphabet. -/
def b64Alphabet : List Char :=
  String.toList "ABCDEFGHIJKLMNOPQRSTUVWXYZabcdefghijklmnopqrstuvwxyz0123456789+/"

/-- Symbol for a 6-bit value. -/
def b64Char (n : Nat) : Char := b64Alphabet.getD n 'A'

/-- 6-bit value of a symbol; `none` for characters outside the alphabet. -/
def b64Index (c : Char) : Option Nat :=
  let i := b64Alphabet.indexOf c
  if i < 64 then some i else none

/-- base64 encoding of a byte list, processed in 3-byte groups with `=`
padding on the final partial group. -/
def b64EncodeChunks : List Nat → List Char
  | a :: b :: c :: rest =>
      b64Char (a / 4) :: b64Char (a % 4 * 16 + b / 16) ::
      b64Char (b % 16 * 4 + c / 64) :: b64Char (c % 64) :: b64EncodeChunks rest
  | [a, b] => [b64Char (a / 4), b64Char (a % 4 * 16 + b / 16), b64Char (b % 16 * 4), '=']
  | [a] => [b64Char (a / 4), b64Char (a % 4 * 16), '=', '=']
  | [] => []

/-- Strict base64 decoding: total length a multiple of 4, `=` only as final
padding, trailing bits must be zero; `none` on any violation, matching the
STANDARD engine's canonical-padding decode. -/
def b64DecodeChunks : List Char → Option (List Nat)
  | [] => some []
  | c1 :: c2 :: c3 :: c4 :: rest =>
      match b64Index c1, b64Index c2 with
      | some n1, some n2 =>
          if c3 = '=' then
            if c4 = '=' ∧ rest = [] ∧ n2 % 16 = 0 then
              some [n1 * 4 + n2 / 16]
            else none
          else
            match b64Index c3 with
            | some n3 =>
                if c4 = '=' then
                  if rest = [] ∧ n3 % 4 = 0 then
                    some [n1 * 4 + n2 / 16, n2 % 16 * 16 + n3 / 4]
                  else none
                else
                  match b64Index c4, b64DecodeChunks rest with
                  | some n4, some tail =>
                      some ((n1 * 4 + n2 / 16) :: (n2 % 16 * 16 + n3 / 4) ::
                        (n3 % 4 * 64 + n4) :: tail)
                  | _, _ => none
            | none => none
      | _, _ => none
  | _ => none

theorem b64Index_b64Char : ∀ n : Nat, n < 64 → b64Index (b64Char n) = some n := by
  decide

theorem b64Char_ne_pad : ∀ n : Nat, n < 64 → ¬ (b64Char n = '=') := by
  decide

theorem b64_roundtrip : ∀ l : List Nat, (∀ x ∈ l, x < 256) →
    b64DecodeChunks (b64EncodeChunks l) = some l := by
  intro l
  induction l using b64EncodeChunks.induct with
  | case1 a b c rest ih =>
      intro h
      have ha : a < 256 := h a (by simp)
      have hb : b < 256 := h b (by simp)
      have hc : c < 256 := h c (by simp)
      have h1 : b64Index (b64Char (a / 4)) = some (a / 4) :=
        b64Index_b64Char _ (by omega)
      have h2 : b64Index (b64Char (a % 4 * 16 + b / 16)) = some (a % 4 * 16 + b / 16) :=
        b64Index_b64Char _ (by omega)
      have h3 : b64Index (b64Char (b % 16 * 4 + c / 64)) = some (b % 16 * 4 + c / 64) :=
        b64Index_b64Char _ (by omega)
      have h4 : b64Index (b64Char (c % 64)) = some (c % 64) :=
        b64Index_b64Char _ (by omega)
      have hne3 : ¬ (b64Char (b % 16 * 4 + c / 64) = '=') :=
        b64Char_ne_pad _ (by omega)
      have hne4 : ¬ (b64Char (c % 64) = '=') :=
        b64Char_ne_pad _ (by omega)
      have hrest : b64DecodeChunks (b64EncodeChunks rest) = some rest :=
        ih (fun x hx => h x (by simp [hx]))
      simp [b64EncodeChunks, b64DecodeChunks, h1, h2, h3, h4, hrest, hne3, hne4]
      omega
  | case2 a b =>
      intro h
      have ha : a < 256 := h a (by simp)
      have hb : b < 256 := h b (by simp)
      have h1 : b64Index (b64Char (a / 4)) = some (a / 4) :=
        b64Index_b64Char _ (by omega)
      have h2 : b64Index (b64Char (a % 4 * 16 + b / 16)) = some (a % 4 * 16 + b / 16) :=
        b64Index_b64Char _ (by omega)
      have h3 : b64Index (b64Char (b % 16 * 4)) = some (b % 16 * 4) :=
        b64Index_b64Char _ (by omega)
      have hne3 : ¬ (b64Char (b % 16 * 4) = '=') :=
        b64Char_ne_pad _ (by omega)
      simp [b64EncodeChunks, b64DecodeChunks, h1, h2, h3, hne3]
      omega
  | case3 a =>
      intro h
      have ha : a < 256 := h a (by simp)
      have h1 : b64Index (b64Char (a / 4)) = some (a / 4) :=
        b64Index_b64Char _ (by omega)
      have h2 : b64Index (b64Char (a % 4 * 16)) = some (a % 4 * 16) :=
        b64Index_b64Char _ (by omega)
      simp [b64EncodeChunks, b64DecodeChunks, h1, h2]
      omega
  | case4 =>
      intro _
      simp [b64EncodeChunks, b64DecodeChunks]

/-! ## Temp-file staging (`lib.rs`: `print_pdf_bytes` lines 94-106,
`create_temp_pdf_path`) -/

/-- Filesystem model: file contents by path, plus which paths accept writes
(modelling `fs::write` failure). -/
structure Fs where
  files : List Char → Option (List Nat)
  writable : List Char → Bool

/-- `fs::write`: replaces the file contents at `p`, or fails. -/
def Fs.write (fs : Fs) (p : List Char) (content : List Nat) : Option Fs :=
  if fs.writable p then
    some { fs with files := fun q => if q = p then some content else fs.files q }
  else none

/-- Placeholder for the platform/library error text carried inside `Error`
payloads; the concrete text comes from foreign `to_string()` calls and is
outside the model. -/
def errText : List Char := []

/-- `create_temp_pdf_path` from `lib.rs`: the fixed filename prefix plus the
current Unix time in milliseconds, joined onto the temp directory (`tempDir`
carries its trailing separator). -/
def create_temp_pdf_path (tempDir : List Char) (nowMillis : Nat) : List Char :=
  tempDir ++ String.toList ("native-pdf-print-" ++ toString nowMillis ++ ".pdf")

/-- The staging part of `print_pdf_bytes` (`lib.rs` lines 96-106): decode the
base64 payload (`ReadFailed` on malformed input, before any write), then
write it to the temp path (`WriteFailed` on write failure). Returns the
staged path and the resulting filesystem. -/
def print_pdf_bytes_stage (dataBase64 tempDir : List Char) (nowMillis : Nat)
    (fs : Fs) : Except Error (List Char) × Fs :=
  match b64DecodeChunks dataBase64 with
  | none => (Except.error (Error.ReadFailed errText), fs)
  | some data =>
      let temp_path := create_temp_pdf_path tempDir nowMillis
      match fs.write temp_path data with
      | none => (Except.error (Error.WriteFailed errText), fs)
      | some fs2 => (Except.ok temp_path, fs2)

/-- C3: staging the base64 encoding of any byte sequence writes a temp file
that reads back byte-for-byte equal to the original data, at the path built
from the fixed prefix plus the current time. -/
theorem print_pdf_bytes_stage_roundtrip :
    ∀ (data : List Nat) (tempDir : List Char) (now : Nat) (fs : Fs),
      (∀ x ∈ data, x < 256) →
      fs.writable (create_temp_pdf_path tempDir now) = true →
      ∃ fs2 : Fs,
        print_pdf_bytes_stage (b64EncodeChunks data) tempDir now fs =
          (Except.ok (create_temp_pdf_path tempDir now), fs2) ∧
        fs2.files (create_temp_pdf_path tempDir now) = some data ∧
        create_temp_pdf_path tempDir now =
          tempDir ++ String.toList ("native-pdf-print-" ++ toString now ++ ".pdf") := by
  intro data tempDir now fs hdata hw
  refine ⟨Fs.mk
    (fun q => if q = create_temp_pdf_path tempDir now then some data else fs.files q)
    fs.writable, ?_, by simp, rfl⟩
  simp [print_pdf_bytes_stage, b64_roundtrip data hdata, Fs.write, hw]

/-- Witness filesystem: empty, all paths writable. -/
def fsAllWritable : Fs := ⟨fun _ => none, fun _ => true⟩

/-- Witness filesystem: empty, no path writable. -/
def fsNoneWritable : Fs := ⟨fun _ => none, fun _ => false⟩

/-- Witness for C3: staging the encoding of the bytes `%PDF` stages a file
that reads back as exactly those bytes. -/
theorem print_pdf_bytes_stage_roundtrip_witness :
    ∃ fs2 : Fs,
      print_pdf_bytes_stage (b64EncodeChunks [37, 80, 68, 70])
          (String.toList "/tmp/") 5 fsAllWritable =
        (Except.ok (create_temp_pdf_path (String.toList "/tmp/") 5), fs2) ∧
      fs2.files (create_temp_pdf_path (String.toList "/tmp/") 5) =
        some [37, 80, 68, 70] ∧
      create_temp_pdf_path (String.toList "/tmp/") 5 =
        String.toList "/tmp/" ++ String.toList ("native-pdf-print-" ++ toString 5 ++ ".pdf") :=
  print_pdf_bytes_stage_roundtrip [37, 80, 68, 70] (String.toList "/tmp/") 5
    fsAllWritable (by decide) rfl

/-- C4: malformed base64 yields `ReadFailed` with the filesystem untouched
(no temp file is created — decoding precedes any write); valid base64 whose
temp-file write fails yields `WriteFailed`. -/
theorem print_pdf_bytes_stage_errors :
    (∀ (s tempDir : List Char) (now : Nat) (fs : Fs),
      b64DecodeChunks s = none →
      print_pdf_bytes_stage s tempDir now fs =
        (Except.error (Error.ReadFailed errText), fs)) ∧
    (∀ (s tempDir : List Char) (now : Nat) (fs : Fs) (data : List Nat),
      b64DecodeChunks s = some data →
      fs.writable (create_temp_pdf_path tempDir now) = false →
      print_pdf_bytes_stage s tempDir now fs =
        (Except.error (Error.WriteFailed errText), fs)) := by
  constructor
  · intro s tempDir now fs h
    simp [print_pdf_bytes_stage, h]
  · intro s tempDir now fs data h hw
    simp [print_pdf_bytes_stage, h, Fs.write, hw]

/-- Witness for C4: the non-base64 input `"!!"` produces `ReadFailed` and
leaves the filesystem unchanged; the valid input `"AA=="` on an unwritable
filesystem produces `WriteFailed`. -/
theorem print_pdf_bytes_stage_errors_witness :
    print_pdf_bytes_stage (String.toList "!!") (String.toList "/tmp/") 5
        fsAllWritable =
      (Except.error (Error.ReadFailed errText), fsAllWritable) ∧
    print_pdf_bytes_stage (String.toList "AA==") (String.toList "/tmp/") 5
        fsNoneWritable =
      (Except.error (Error.WriteFailed errText), fsNoneWritable) :=
  ⟨print_pdf_bytes_stage_errors.1 _ _ 5 fsAllWritable (by decide),
   print_pdf_bytes_stage_errors.2 _ _ 5 fsNoneWritable [0] (by decide) rfl⟩

/-! ## Linux backend: `parse_media_options` (`linux.rs`) -/

/-- Strip one trailing carriage return (Rust `str::lines` behavior). -/
def stripTrailingCr (l : List Char) : List Char :=
  match l.getLast? with
  | some '\r' => l.dropLast
  | _ => l

/-- Split on newline characters, keeping every field. -/
def splitNlAux : List Char → List Char → List (List Char)
  | acc, [] => [acc.reverse]
  | acc, '\n' :: rest => acc.reverse :: splitNlAux [] rest
  | acc, c :: rest => splitNlAux (c :: acc) rest

/-- Rust `str::lines`: split on `\n`, no phantom final line for a trailing
newline, each line stripped of one trailing `\r`. -/
def rustLines (s : List Char) : List (List Char) :=
  let fields := splitNlAux [] s
  let fields2 := match fields.getLast? with
    | some [] => fields.dropLast
    | _ => fields
  fields2.map stripTrailingCr

/-- Rust `split_whitespace` over a line: the maximal non-whitespace runs. -/
def wsTokensAux : List Char → List Char → List (List Char)
  | cur, [] => if cur.isEmpty then [] else [cur.reverse]
  | cur, c :: rest =>
      if isWs c then
        if cur.isEmpty then wsTokensAux [] rest
        else cur.reverse :: wsTokensAux [] rest
      else wsTokensAux (c :: cur) rest

/-- All whitespace-separated tokens of `l`. -/
def wsTokens (l : List Char) : List (List Char) := wsTokensAux [] l

/-- Rust `splitn(2, ":").nth(1)`: the text after the first colon. -/
def afterFirstColon : List Char → Option (List Char)
  | [] => none
  | ':' :: rest => some rest
  | _ :: rest => afterFirstColon rest

/-- Rust `split_once("/")`: text before and after the first slash. -/
def splitOnceSlashAux : List Char → List Char → Option (List Char × List Char)
  | _, [] => none
  | acc, '/' :: rest => some (acc.reverse, rest)
  | acc, c :: rest => splitOnceSlashAux (c :: acc) rest

/-- One `[*]id[/label]` token of a media line (`linux.rs` lines 166-178):
a leading `*` marks the default, all leading `*` are stripped, and a `/`
separates id from label (both equal to the token when absent). -/
def parseMediaToken (token : List Char) : MediaOption :=
  let isDef := leadsWith (String.toList "*") token
  let raw := token.dropWhile (fun c => c == '*')
  match splitOnceSlashAux [] raw with
  | some (i, lab) => ⟨i, lab, isDef⟩
  | none => ⟨raw, raw, isDef⟩

/-- The media/page-size line test from `linux.rs` lines 154-157. -/
def isMediaLine (line : List Char) : Bool :=
  leadsWith (String.toList "media/") line
    || leadsWith (String.toList "PageSize/") line
    || leadsWith (String.toList "PageSize") line
    || leadsWith (String.toList "Media") line

/-- The line loop of `parse_media_options`: the first media-labeled line with
a colon and at least one token wins; its tokens are the result. -/
def parseMediaLines : List (List Char) → List MediaOption
  | [] => []
  | line :: rest =>
      if isMediaLine line then
        match afterFirstColon line with
        | none => parseMediaLines rest
        | some values =>
            let options := (wsTokens values).map parseMediaToken
            if options.isEmpty then parseMediaLines rest else options
      else parseMediaLines rest

/-- `parse_media_options` from `linux.rs`. -/
def parse_media_options (output : List Char) : List MediaOption :=
  parseMediaLines (rustLines output)

/-- The `*`-marked-token count of the media line that the parser selects
(mirrors the selection logic of `parseMediaLines`). -/
def selectedStarCount : List (List Char) → Nat
  | [] => 0
  | line :: rest =>
      if isMediaLine line then
        match afterFirstColon line with
        | none => selectedStarCount rest
        | some values =>
            let toks := wsTokens values
            if toks.isEmpty then selectedStarCount rest
            else toks.countP (fun t => leadsWith (String.toList "*") t)
      else selectedStarCount rest

/-- Counterexample for C7 as stated: the options text
`"PageSize/Media Size: *A4 *Letter"` contains a `*`-marked token, yet the
parsed result has two defaults, not exactly one. -/
theorem parse_media_options_claim_counterexample :
    (wsTokens (String.toList "PageSize/Media Size: *A4 *Letter")).any
        (fun t => leadsWith (String.toList "*") t) = true ∧
    ¬ ((parse_media_options (String.toList "PageSize/Media Size: *A4 *Letter")).countP
        (fun o => o.is_default) = 1) := by
  constructor
  · decide
  · decide

theorem countP_eq_of_forall {α : Type} (p q : α → Bool) :
    ∀ l : List α, (∀ a, p a = q a) → l.countP p = l.countP q := by
  intro l h
  induction l with
  | nil => rfl
  | cons a as ih => simp [List.countP_cons, h a, ih]

theorem parseMediaToken_is_default (t : List Char) :
    (parseMediaToken t).is_default = leadsWith (String.toList "*") t := by
  unfold parseMediaToken
  rcases h : splitOnceSlashAux [] (t.dropWhile (fun c => c == '*')) with _ | ⟨i, lab⟩ <;>
    simp [h]

theorem parseMediaLines_countP_defaults :
    ∀ ls : List (List Char),
      (parseMediaLines ls).countP (fun o => o.is_default) = selectedStarCount ls := by
  intro ls
  induction ls with
  | nil => rfl
  | cons line rest ih =>
      by_cases hm : isMediaLine line = true
      · cases hcolon : afterFirstColon line with
        | none => simp [parseMediaLines, selectedStarCount, hm, hcolon, ih]
        | some values =>
            by_cases hemp : (wsTokens values).isEmpty = true
            · have htoks : wsTokens values = [] := by
                cases htoks : wsTokens values with
                | nil => rfl
                | cons a as => rw [htoks] at hemp; simp at hemp
              simp [parseMediaLines, selectedStarCount, hm, hcolon, htoks, ih]
            · have hne : wsTokens values ≠ [] := by
                intro hnil
                rw [hnil] at hemp
                simp at hemp
              have hemp1 : (wsTokens values).isEmpty = false := by
                cases htoks : wsTokens values with
                | nil => exact absurd htoks hne
                | cons a as => simp
              have hemp2 : ((wsTokens values).map parseMediaToken).isEmpty = false := by
                cases htoks : wsTokens values with
                | nil => exact absurd htoks hne
                | cons a as => simp [htoks]
              simp [parseMediaLines, selectedStarCount, hm, hcolon, hemp1, hemp2,
                List.countP_map, parseMediaToken_is_default, Function.comp]
              exact countP_eq_of_forall _ _ _
                (fun t => by simp [Function.comp, parseMediaToken_is_default])
      · simp [parseMediaLines, selectedStarCount, hm, ih]

/-- C7 (amended): parsing is deterministic — the same options text always
parses to the same ordered list — and the number of parsed options with
`isDefault = true` equals the number of `*`-marked tokens on the media line
the parser selects (so there is exactly one default exactly when that line
carries exactly one `*` token; a `*` token elsewhere in the text, or several
on the selected line, breaks the one-default property). -/
theorem parse_media_options_spec :
    (∀ output : List Char, parse_media_options output = parse_media_options output) ∧
    (∀ output : List Char,
      (parse_media_options output).countP (fun o => o.is_default) =
        selectedStarCount (rustLines output)) := by
  refine ⟨fun _ => rfl, fun output => ?_⟩
  exact parseMediaLines_countP_defaults (rustLines output)

/-! ## Windows raster pipeline arithmetic (`windows.rs` `print_pdf_sync`).
`f32` arithmetic is modelled exactly over `ℚ`; `f32::round` (half away from
zero, applied here to nonnegative values) is `rnd`. -/

/-- Round half up: `f32::round` on the nonnegative values that occur here. -/
def rnd (x : ℚ) : ℤ := Int.floor (x + 1 / 2)

theorem rnd_le_int (x : ℚ) (n : ℤ) (h : x ≤ n) : rnd x ≤ n := by
  unfold rnd
  have h3 : Int.floor (x + 1 / 2) < n + 1 := by
    apply Int.floor_lt.mpr
    push_cast
    linarith
  omega

theorem rnd_intCast (n : ℤ) : rnd (n : ℚ) = n := by
  unfold rnd
  rw [Int.floor_eq_iff]
  constructor
  · linarith
  · linarith

/-- Target raster dimensions before the 2000px cap (`windows.rs` lines
210-213): `round(page_points / 72 * dpi)` floored at 1, with the render dpi
clamped to `MAX_RENDER_DPI = 150`. -/
def computeTargetDims (widthPts heightPts : ℚ) (dpiX dpiY : ℕ) : ℕ × ℕ :=
  (max 1 (rnd (widthPts / 72 * (min dpiX 150 : ℕ))).toNat,
   max 1 (rnd (heightPts / 72 * (min dpiY 150 : ℕ))).toNat)

/-- The `MAX_RENDER_DIM = 2000` cap (`windows.rs` lines 214-219): when either
axis exceeds 2000, both are multiplied by
`min(2000 / target_w, 2000 / target_h)`, rounded, and floored at 1. -/
def capDims (tw th : ℕ) : ℕ × ℕ :=
  if 2000 < tw ∨ 2000 < th then
    (max 1 (rnd (tw * min ((2000 : ℚ) / tw) ((2000 : ℚ) / th))).toNat,
     max 1 (rnd (th * min ((2000 : ℚ) / tw) ((2000 : ℚ) / th))).toNat)
  else (tw, th)


/-- C1: every computed target dimension pair is at least 1 on both axes, and
whenever either axis exceeds 2000, the cap multiplies both axes by one
uniform factor strictly between 0 and 1 and the result is at most 2000 and
at least 1 on both axes (aspect ratio preserved within rounding: both axes
are rounded images of the same uniform scale). -/
theorem capDims_spec :
    (∀ (wPts hPts : ℚ) (dx dy : ℕ),
      1 ≤ (computeTargetDims wPts hPts dx dy).1 ∧
      1 ≤ (computeTargetDims wPts hPts dx dy).2) ∧
    (∀ tw th : ℕ, 1 ≤ tw → 1 ≤ th → (2000 < tw ∨ 2000 < th) →
      ∃ s : ℚ, 0 < s ∧ s < 1 ∧
        capDims tw th = (max 1 (rnd (tw * s)).toNat, max 1 (rnd (th * s)).toNat) ∧
        (capDims tw th).1 ≤ 2000 ∧ (capDims tw th).2 ≤ 2000 ∧
        1 ≤ (capDims tw th).1 ∧ 1 ≤ (capDims tw th).2) := by
  constructor
  · intro wPts hPts dx dy
    exact ⟨Nat.le_max_left 1 _, Nat.le_max_left 1 _⟩
  intro tw th htw1 hth1 h
  have htwQ : (0 : ℚ) < (tw : ℚ) := by exact_mod_cast htw1
  have hthQ : (0 : ℚ) < (th : ℚ) := by exact_mod_cast hth1
  have hwle : (tw : ℚ) * min ((2000 : ℚ) / tw) ((2000 : ℚ) / th) ≤ 2000 := by
    calc (tw : ℚ) * min ((2000 : ℚ) / tw) ((2000 : ℚ) / th)
        ≤ (tw : ℚ) * ((2000 : ℚ) / tw) :=
          mul_le_mul_of_nonneg_left (min_le_left _ _) (le_of_lt htwQ)
      _ = 2000 := mul_div_cancel₀ _ (ne_of_gt htwQ)
  have hhle : (th : ℚ) * min ((2000 : ℚ) / tw) ((2000 : ℚ) / th) ≤ 2000 := by
    calc (th : ℚ) * min ((2000 : ℚ) / tw) ((2000 : ℚ) / th)
        ≤ (th : ℚ) * ((2000 : ℚ) / th) :=
          mul_le_mul_of_nonneg_left (min_le_right _ _) (le_of_lt hthQ)
      _ = 2000 := mul_div_cancel₀ _ (ne_of_gt hthQ)
  have hwcap : (rnd ((tw : ℚ) * min ((2000 : ℚ) / tw) ((2000 : ℚ) / th))).toNat ≤ 2000 := by
    rw [Int.toNat_le]
    exact_mod_cast rnd_le_int _ 2000 (by exact_mod_cast hwle)
  have hhcap : (rnd ((th : ℚ) * min ((2000 : ℚ) / tw) ((2000 : ℚ) / th))).toNat ≤ 2000 := by
    rw [Int.toNat_le]
    exact_mod_cast rnd_le_int _ 2000 (by exact_mod_cast hhle)
  refine ⟨min ((2000 : ℚ) / tw) ((2000 : ℚ) / th),
    lt_min (by positivity) (by positivity), ?_, ?_, ?_, ?_, ?_, ?_⟩
  · rcases h with h | h
    · refine lt_of_le_of_lt (min_le_left _ _) ?_
      rw [div_lt_one htwQ]
      exact_mod_cast h
    · refine lt_of_le_of_lt (min_le_right _ _) ?_
      rw [div_lt_one hthQ]
      exact_mod_cast h
  · simp [capDims, if_pos h]
  · simp only [capDims, if_pos h]
    exact Nat.max_le.mpr ⟨by norm_num, hwcap⟩
  · simp only [capDims, if_pos h]
    exact Nat.max_le.mpr ⟨by norm_num, hhcap⟩
  · simp only [capDims, if_pos h]
    exact Nat.le_max_left 1 _
  · simp only [capDims, if_pos h]
    exact Nat.le_max_left 1 _

/-- Witness for C1: a 20in-wide page at 600 dpi (clamped to 150) targets
3000x1650 and is capped to at most 2000 on both axes. -/
theorem capDims_spec_witness :
    (1 ≤ (computeTargetDims 1440 792 600 600).1 ∧
      1 ≤ (computeTargetDims 1440 792 600 600).2) ∧
    ∃ s : ℚ, 0 < s ∧ s < 1 ∧
      capDims 3000 1650 = (max 1 (rnd (3000 * s)).toNat, max 1 (rnd (1650 * s)).toNat) ∧
      (capDims 3000 1650).1 ≤ 2000 ∧ (capDims 3000 1650).2 ≤ 2000 ∧
      1 ≤ (capDims 3000 1650).1 ∧ 1 ≤ (capDims 3000 1650).2 :=
  ⟨capDims_spec.1 1440 792 600 600,
   capDims_spec.2 3000 1650 (by norm_num) (by norm_num) (Or.inl (by norm_num))⟩

/-- The fit scale from `windows.rs` lines 236-238:
`min(printable_w / width, printable_h / height)` floored at `0.01`. -/
def fitScale (printableW printableH : ℤ) (bw bh : ℕ) : ℚ :=
  max (min ((printableW : ℚ) / bw) ((printableH : ℚ) / bh)) (1 / 100)

/-- The fit computation from `windows.rs` lines 236-242, returning
`(dest_w, dest_h, dest_x, dest_y)`; Rust `i32` division truncates, hence
`Int.tdiv`. -/
def computeFit (printableW printableH offsetX offsetY : ℤ) (bw bh : ℕ) :
    ℤ × ℤ × ℤ × ℤ :=
  (rnd (bw * fitScale printableW printableH bw bh),
   rnd (bh * fitScale printableW printableH bw bh),
   offsetX + Int.tdiv (printableW - rnd (bw * fitScale printableW printableH bw bh)) 2,
   offsetY + Int.tdiv (printableH - rnd (bh * fitScale printableW printableH bw bh)) 2)

/-- Counterexample for C2 as stated: with printable area 1x1 and bitmap
1000x1000 the 0.01 scale floor binds and the 10x10 destination exceeds the
printable area on both axes. -/
theorem computeFit_claim_counterexample :
    ¬ ((computeFit 1 1 0 0 1000 1000).1 ≤ 1 ∨
       (computeFit 1 1 0 0 1000 1000).2.1 ≤ 1) := by
  norm_num [computeFit, fitScale, rnd]

/-- C2 (amended): the destination origin is the physical offset plus half the
printable-minus-destination difference on each axis (centering), and —
provided the 0.01 scale floor is not the binding term, i.e.
`min(printable/bitmap) ≥ 0.01` — the destination is within the printable
area on at least one axis. -/
theorem computeFit_spec :
    ∀ (pW pH oX oY : ℤ) (bw bh : ℕ), 0 < bw → 0 < bh →
      (1 / 100 : ℚ) ≤ min ((pW : ℚ) / bw) ((pH : ℚ) / bh) →
      (computeFit pW pH oX oY bw bh).2.2.1 =
        oX + Int.tdiv (pW - (computeFit pW pH oX oY bw bh).1) 2 ∧
      (computeFit pW pH oX oY bw bh).2.2.2 =
        oY + Int.tdiv (pH - (computeFit pW pH oX oY bw bh).2.1) 2 ∧
      ((computeFit pW pH oX oY bw bh).1 ≤ pW ∨
        (computeFit pW pH oX oY bw bh).2.1 ≤ pH) := by
  intro pW pH oX oY bw bh hbw hbh hmin
  refine ⟨rfl, rfl, ?_⟩
  have hbwQ : (0 : ℚ) < (bw : ℚ) := by exact_mod_cast hbw
  have hbhQ : (0 : ℚ) < (bh : ℚ) := by exact_mod_cast hbh
  have hscale : fitScale pW pH bw bh = min ((pW : ℚ) / bw) ((pH : ℚ) / bh) :=
    max_eq_left hmin
  rcases min_cases ((pW : ℚ) / bw) ((pH : ℚ) / bh) with ⟨hcase, _⟩ | ⟨hcase, _⟩
  · left
    show rnd (bw * fitScale pW pH bw bh) ≤ pW
    have hmul : (bw : ℚ) * ((pW : ℚ) / (bw : ℚ)) = (pW : ℚ) := by
      field_simp
    rw [hscale, hcase, hmul, rnd_intCast]
  · right
    show rnd (bh * fitScale pW pH bw bh) ≤ pH
    have hmul : (bh : ℚ) * ((pH : ℚ) / (bh : ℚ)) = (pH : ℚ) := by
      field_simp
    rw [hscale, hcase, hmul, rnd_intCast]

/-- Witness for C2: an 850x1100 printable area with offsets (10, 12) and a
425x1100 bitmap; the height axis binds and the destination stays inside. -/
theorem computeFit_spec_witness :
    (computeFit 850 1100 10 12 425 1100).2.2.1 =
      10 + Int.tdiv (850 - (computeFit 850 1100 10 12 425 1100).1) 2 ∧
    (computeFit 850 1100 10 12 425 1100).2.2.2 =
      12 + Int.tdiv (1100 - (computeFit 850 1100 10 12 425 1100).2.1) 2 ∧
    ((computeFit 850 1100 10 12 425 1100).1 ≤ 850 ∨
      (computeFit 850 1100 10 12 425 1100).2.1 ≤ 1100) :=
  computeFit_spec 850 1100 10 12 425 1100 (by norm_num) (by norm_num)
    (by norm_num)

/-! ## Windows caching layer (`windows.rs` lines 35-43, 686-730).
`Instant` is modelled as a monotone clock in seconds; `elapsed()` at time
`now` for an entry fetched at `fetched_at` is `now - fetched_at`. -/

/-- `CACHE_TTL = Duration::from_secs(30)`. -/
def CACHE_TTL : ℕ := 30

/-- `Cache<T>` from `windows.rs`. -/
structure Cache (T : Type) where
  value : T
  fetched_at : ℕ
deriving DecidableEq, Repr

/-- `get_cached_printers`: a hit requires `elapsed <= CACHE_TTL`; on a miss
the slot is cleared in place (`*guard = None`). Returns the lookup result
and the slot's new state. -/
def get_cached_printers (cache : Option (Cache (List PrinterInfo))) (now : ℕ) :
    Option (List PrinterInfo) × Option (Cache (List PrinterInfo)) :=
  match cache with
  | some entry =>
      if now - entry.fetched_at ≤ CACHE_TTL then (some entry.value, some entry)
      else (none, none)
  | none => (none, none)

/-- Association-list model of the `HashMap` media cache. -/
def assocLookup {α : Type} (k : List Char) : List (List Char × α) → Option α
  | [] => none
  | (k2, v) :: rest => if k2 = k then some v else assocLookup k rest

/-- `HashMap::insert`, replacing any existing entry for the key. -/
def assocInsert {α : Type} (k : List Char) (v : α) :
    List (List Char × α) → List (List Char × α)
  | [] => [(k, v)]
  | (k2, v2) :: rest =>
      if k2 = k then (k, v) :: rest else (k2, v2) :: assocInsert k v rest

/-- `get_cached_media`: a hit requires `elapsed <= CACHE_TTL`; an expired
entry is left in the map and merely reported as absent. -/
def get_cached_media (cache : List (List Char × Cache (List MediaOption)))
    (printer : List Char) (now : ℕ) : Option (List MediaOption) :=
  match assocLookup printer cache with
  | some entry =>
      if now - entry.fetched_at ≤ CACHE_TTL then some entry.value else none
  | none => none

/-! ## Windows backend (`windows.rs`), OS calls as oracles -/

/-- Oracle for the Windows printer-enumeration path of `get_printers`:
the default-printer name (`get_default_printer` cannot fail on Windows),
the byte count reported by the probing `EnumPrintersW` call, the success of
the filling call, and the names it returns. -/
structure WinEnv where
  defaultPrinter : Option (List Char)
  enumNeeded : ℕ
  enumOk : Bool
  enumNames : List (List Char)

/-- `get_printers` from `windows.rs`: cache hit short-circuits the OS;
otherwise enumerate, skip empty names, mark the default, cache the result.
The middle component records whether the OS enumeration ran. -/
def win_get_printers (env : WinEnv)
    (cache : Option (Cache (List PrinterInfo))) (now : ℕ) :
    Except Error (List PrinterInfo) × Bool × Option (Cache (List PrinterInfo)) :=
  match get_cached_printers cache now with
  | (some cached, cache2) => (Except.ok cached, false, cache2)
  | (none, cache2) =>
      let default_printer := env.defaultPrinter.getD []
      if env.enumNeeded = 0 then (Except.ok [], true, cache2)
      else if env.enumOk then
        let result := (env.enumNames.filter (fun n => !n.isEmpty)).map
          (fun name =>
            PrinterInfo.mk name ((!default_printer.isEmpty) && (name == default_printer))
              (String.toList "unknown"))
        (Except.ok result, true, some (Cache.mk result now))
      else (Except.error (Error.PrinterLookupFailed errText), true, cache2)

/-- C6: a printer-cache lookup 29s after the entry was stored returns the
cached value with no OS enumeration; 31s after, the OS is queried afresh; an
entry is valid exactly while its age is at most 30s; the expired media entry
stays in the map (treated as absent, merely overwritten by the next store
rather than purged). -/
theorem cache_ttl_spec :
    (∀ (env : WinEnv) (v : List PrinterInfo) (f : ℕ),
      win_get_printers env (some (Cache.mk v f)) (f + 29) =
        (Except.ok v, false, some (Cache.mk v f))) ∧
    (∀ (env : WinEnv) (v : List PrinterInfo) (f : ℕ),
      (win_get_printers env (some (Cache.mk v f)) (f + 31)).2.1 = true) ∧
    (∀ (entry : Cache (List PrinterInfo)) (now : ℕ),
      (get_cached_printers (some entry) now).1 =
        if now - entry.fetched_at ≤ 30 then some entry.value else none) ∧
    (∀ (k : List Char) (v : List MediaOption) (f : ℕ),
      get_cached_media [(k, Cache.mk v f)] k (f + 29) = some v) ∧
    (∀ (k : List Char) (v : List MediaOption) (f : ℕ),
      get_cached_media [(k, Cache.mk v f)] k (f + 31) = none) ∧
    (∀ (entry : Cache (List MediaOption)) (k : List Char) (now : ℕ),
      (if now - entry.fetched_at ≤ 30 then some entry.value else none) =
        get_cached_media [(k, entry)] k now) ∧
    (∀ (k : List Char) (old new : Cache (List MediaOption)),
      assocLookup k (assocInsert k new [(k, old)]) = some new) := by
  refine ⟨?_, ?_, ?_, ?_, ?_, ?_, ?_⟩
  · intro env v f
    simp [win_get_printers, get_cached_printers, CACHE_TTL]
  · intro env v f
    have hexp : ¬ (f + 31 - f ≤ CACHE_TTL) := by simp [CACHE_TTL]
    by_cases h0 : env.enumNeeded = 0
    · simp [win_get_printers, get_cached_printers, hexp, h0, CACHE_TTL]
    · by_cases hok : env.enumOk = true
      · simp [win_get_printers, get_cached_printers, hexp, h0, hok, CACHE_TTL]
      · simp [win_get_printers, get_cached_printers, hexp, h0, hok, CACHE_TTL]
  · intro entry now
    simp only [get_cached_printers, CACHE_TTL]
    split <;> rfl
  · intro k v f
    simp [get_cached_media, assocLookup, CACHE_TTL]
  · intro k v f
    simp [get_cached_media, assocLookup, CACHE_TTL]
  · intro entry k now
    simp [get_cached_media, assocLookup, CACHE_TTL]
  · intro k old new
    simp [assocInsert, assocLookup]

/-- `default_media_options` from `windows.rs` lines 519-537. -/
def default_media_options : List MediaOption :=
  [String.toList "Letter", String.toList "Legal", String.toList "A4",
   String.toList "A3", String.toList "A5", String.toList "Tabloid",
   String.toList "Executive"].map
    (fun name => MediaOption.mk name name false)

/-- Oracle for the Windows media path of `get_printer_media`: the
default-printer name, `OpenPrinterW` success, the byte count of the probing
`EnumFormsW` call, the filling call's success, and the form names it
returns. -/
structure WinMediaEnv where
  defaultPrinter : Option (List Char)
  openOk : Bool
  formsNeeded : ℕ
  formsOk : Bool
  formNames : List (List Char)

/-- `get_printer_media` from `windows.rs`: resolve the target name (explicit
or default; no target means `Ok([])`), consult the cache, otherwise open the
printer and enumerate forms; zero bytes needed or an all-empty name list
falls back to `default_media_options`; the result is cached. The middle
component records whether the OS was consulted past the cache. -/
def win_get_printer_media (env : WinMediaEnv)
    (cache : List (List Char × Cache (List MediaOption)))
    (now : ℕ) (printer_name : Option (List Char)) :
    Except Error (List MediaOption) × Bool ×
      List (List Char × Cache (List MediaOption)) :=
  let target := match printer_name with
    | some n => some n
    | none => env.defaultPrinter
  match target with
  | none => (Except.ok [], false, cache)
  | some name =>
      match get_cached_media cache name now with
      | some cached => (Except.ok cached, false, cache)
      | none =>
          if env.openOk then
            if env.formsNeeded = 0 then
              (Except.ok default_media_options, true,
               assocInsert name (Cache.mk default_media_options now) cache)
            else if env.formsOk then
              let options := (env.formNames.filter (fun n => !n.isEmpty)).map
                (fun n => MediaOption.mk n n false)
              let options2 :=
                if options.isEmpty then default_media_options else options
              (Except.ok options2, true,
               assocInsert name (Cache.mk options2 now) cache)
            else (Except.error (Error.PrinterLookupFailed errText), true, cache)
          else (Except.error (Error.PrinterLookupFailed errText), true, cache)

/-- Oracle for the Linux media path: the default destination parsed from the
spooler status (already `None` when that command fails), and the per-target
result of the options-dump command (exit success, stdout); `none` target
means the command ran without an explicit destination flag. -/
structure LinuxEnv where
  defaultPrinter : Option (List Char)
  lpoptionsResult : Option (List Char) → Bool × List Char

/-- `get_printer_media` from `linux.rs`: resolve the target (explicit name,
else default, else no flag), run the spooler options dump, fail with
`PrinterLookupFailed` on a nonzero exit, else parse the media options. -/
def linux_get_printer_media (env : LinuxEnv) (printer_name : Option (List Char)) :
    Except Error (List MediaOption) :=
  let target := match printer_name with
    | some n => some n
    | none => env.defaultPrinter
  let r := env.lpoptionsResult target
  if r.1 then Except.ok (parse_media_options r.2)
  else Except.error (Error.PrinterLookupFailed errText)

/-- A Linux host with no default destination whose options-dump command exits
nonzero. -/
def linuxNoDefaultFailingEnv : LinuxEnv :=
  LinuxEnv.mk none (fun _ => (false, []))

/-- Counterexample for C8 as stated: on Linux with no default printer the
options command still runs, and when it exits nonzero the call returns
`PrinterLookupFailed`, not an empty list. -/
theorem get_printer_media_claim_counterexample :
    linux_get_printer_media linuxNoDefaultFailingEnv none =
      Except.error (Error.PrinterLookupFailed errText) := by
  rfl

/-- C8 (amended): on Windows, `get_printer_media(None)` with no default
printer returns `Ok([])` without touching the OS; on Linux the spooler
options command still runs — the call returns the parsed list (empty for
output with no media line) when the command succeeds, and
`PrinterLookupFailed` when it fails. -/
theorem get_printer_media_no_default_spec :
    (∀ (env : WinMediaEnv) (cache : List (List Char × Cache (List MediaOption)))
        (now : ℕ), env.defaultPrinter = none →
      win_get_printer_media env cache now none = (Except.ok [], false, cache)) ∧
    (∀ (env : LinuxEnv) (out : List Char), env.defaultPrinter = none →
      env.lpoptionsResult none = (true, out) →
      linux_get_printer_media env none = Except.ok (parse_media_options out)) ∧
    parse_media_options [] = [] := by
  refine ⟨?_, ?_, rfl⟩
  · intro env cache now h
    simp [win_get_printer_media, h]
  · intro env out h hr
    simp [linux_get_printer_media, h, hr]

/-- A Linux host with no default destination whose options-dump command
succeeds with empty output. -/
def linuxNoDefaultEmptyEnv : LinuxEnv :=
  LinuxEnv.mk none (fun _ => (true, []))

/-- A Windows host with no default printer (the enumeration oracles are
irrelevant on this path). -/
def winNoDefaultEnv : WinMediaEnv :=
  WinMediaEnv.mk none true 0 true []

/-- Witness for C8: the concrete no-default hosts — Windows returns `Ok([])`
without an OS query; Linux with a succeeding empty options dump returns
`Ok([])`. -/
theorem get_printer_media_no_default_spec_witness :
    win_get_printer_media winNoDefaultEnv [] 0 none = (Except.ok [], false, []) ∧
    linux_get_printer_media linuxNoDefaultEmptyEnv none = Except.ok [] := by
  constructor
  · exact get_printer_media_no_default_spec.1 winNoDefaultEnv [] 0 rfl
  · have h := get_printer_media_no_default_spec.2.1 linuxNoDefaultEmptyEnv [] rfl rfl
    rw [h]
    rfl

/-- C10: on a cache miss with the printer opened, a form enumeration that
reports zero bytes or only empty names makes `get_printer_media` succeed
with the fixed seven-entry fallback list (all `isDefault = false`), which is
also cached; and any successful enumeration-path lookup returns a non-empty
list. -/
theorem win_get_printer_media_fallback_spec :
    (∀ (env : WinMediaEnv) (cache : List (List Char × Cache (List MediaOption)))
        (now : ℕ) (name : List Char),
      get_cached_media cache name now = none →
      env.openOk = true →
      (env.formsNeeded = 0 ∨
        (env.formsOk = true ∧ ∀ n ∈ env.formNames, n.isEmpty = true)) →
      win_get_printer_media env cache now (some name) =
        (Except.ok default_media_options, true,
         assocInsert name (Cache.mk default_media_options now) cache)) ∧
    default_media_options =
      [MediaOption.mk (String.toList "Letter") (String.toList "Letter") false,
       MediaOption.mk (String.toList "Legal") (String.toList "Legal") false,
       MediaOption.mk (String.toList "A4") (String.toList "A4") false,
       MediaOption.mk (String.toList "A3") (String.toList "A3") false,
       MediaOption.mk (String.toList "A5") (String.toList "A5") false,
       MediaOption.mk (String.toList "Tabloid") (String.toList "Tabloid") false,
       MediaOption.mk (String.toList "Executive") (String.toList "Executive") false] ∧
    (∀ (env : WinMediaEnv) (cache : List (List Char × Cache (List MediaOption)))
        (now : ℕ) (name : List Char) (r : List MediaOption),
      get_cached_media cache name now = none →
      (win_get_printer_media env cache now (some name)).1 = Except.ok r →
      r ≠ []) := by
  have hifne : ∀ l : List MediaOption,
      (if l.isEmpty then default_media_options else l) ≠ [] := by
    intro l
    by_cases hl : l.isEmpty = true
    · simp [hl, default_media_options]
    · simp only [hl, if_neg, Bool.false_eq_true, not_false_eq_true, if_false]
      intro hnil
      rw [hnil] at hl
      simp at hl
  refine ⟨?_, rfl, ?_⟩
  · intro env cache now name hmiss hopen hzero
    rcases hzero with h0 | ⟨hok, hall⟩
    · simp [win_get_printer_media, hmiss, hopen, h0]
    · have hfilter : env.formNames.filter (fun n => !n.isEmpty) = [] := by
        rw [List.filter_eq_nil_iff]
        intro a ha
        simp [hall a ha]
      by_cases h0 : env.formsNeeded = 0
      · simp [win_get_printer_media, hmiss, hopen, h0]
      · simp [win_get_printer_media, hmiss, hopen, h0, hok, hfilter]
  · intro env cache now name r hmiss heq
    by_cases hopen : env.openOk = true
    · by_cases h0 : env.formsNeeded = 0
      · simp only [win_get_printer_media, hmiss, hopen, if_true, h0] at heq
        simp only [Except.ok.injEq] at heq
        rw [← heq]
        simp [default_media_options]
      · by_cases hok2 : env.formsOk = true
        · simp only [win_get_printer_media, hmiss, hopen, if_true, h0, hok2,
            if_false] at heq
          simp only [Except.ok.injEq] at heq
          rw [← heq]
          exact hifne _
        · simp [win_get_printer_media, hmiss, hopen, h0, hok2] at heq
    · simp [win_get_printer_media, hmiss, hopen] at heq

/-- A Windows host whose form enumeration reports zero bytes needed. -/
def winZeroFormsEnv : WinMediaEnv :=
  WinMediaEnv.mk (some (String.toList "HP")) true 0 true []

/-- Witness for C10: on the zero-forms host, looking up printer `HP` with an
empty cache yields the seven fallback options, cached; and that result is
non-empty. -/
theorem win_get_printer_media_fallback_spec_witness :
    (win_get_printer_media winZeroFormsEnv [] 0 (some (String.toList "HP")) =
      (Except.ok default_media_options, true,
       assocInsert (String.toList "HP") (Cache.mk default_media_options 0) [])) ∧
    ((win_get_printer_media winZeroFormsEnv [] 0 (some (String.toList "HP"))).1 =
        Except.ok default_media_options →
      default_media_options ≠ []) :=
  ⟨win_get_printer_media_fallback_spec.1 winZeroFormsEnv [] 0
      (String.toList "HP") rfl rfl (Or.inl rfl),
   fun h => win_get_printer_media_fallback_spec.2.2 winZeroFormsEnv [] 0
      (String.toList "HP") default_media_options rfl h⟩

/-! ## Windows `print_pdf` entry (`windows.rs` lines 53-97) -/

/-- Oracle for the Windows `print_pdf` entry: path existence and the default
printer name. -/
structure WinPrintEnv where
  pathExists : List Char → Bool
  defaultPrinter : Option (List Char)

/-- The payload captured by `thread::spawn` in `windows.rs` lines 74-90: the
options and resolved printer handed to the detached worker. `print_pdf`
returns with this job still unexecuted — no rendering has happened, and the
worker has no channel back to the caller. -/
structure PendingJob where
  options : PrintOptions
  printer : List Char

/-- `print_pdf` from `windows.rs`: check the path, resolve the printer
(explicit name, else default, else `PrinterLookupFailed`), spawn the raster
pipeline on a detached worker, and return immediately with no job id and the
fixed submission message. -/
def win_print_pdf (env : WinPrintEnv) (options : PrintOptions) :
    Except Error (PrintResult × PendingJob) :=
  if env.pathExists options.path then
    match options.printer_name with
    | some name =>
        Except.ok
          (PrintResult.mk none name (String.toList "Print job submitted (async)"),
           PendingJob.mk options name)
    | none =>
        match env.defaultPrinter with
        | some name =>
            Except.ok
              (PrintResult.mk none name (String.toList "Print job submitted (async)"),
               PendingJob.mk options name)
        | none =>
            Except.error (Error.PrinterLookupFailed
              (String.toList "No default printer configured"))
  else
    Except.error (Error.PrintCommandFailed (String.toList "PDF path does not exist"))

/-- C9: every successful Windows `print_pdf` call returns with `jobId`
absent and the fixed submission message, while the raster pipeline is still
pending on the detached worker (the returned `PendingJob` carries the
options unexecuted); the result printer is exactly the worker's printer. -/
theorem win_print_pdf_spec :
    ∀ (env : WinPrintEnv) (options : PrintOptions) (r : PrintResult)
      (job : PendingJob),
      win_print_pdf env options = Except.ok (r, job) →
      r.job_id = none ∧
      r.message = String.toList "Print job submitted (async)" ∧
      r.printer = job.printer ∧ job.options = options := by
  intro env options r job h
  unfold win_print_pdf at h
  by_cases hp : env.pathExists options.path = true
  · rw [if_pos hp] at h
    cases hn : options.printer_name with
    | some name =>
        rw [hn] at h
        simp only [Except.ok.injEq, Prod.mk.injEq] at h
        obtain ⟨h1, h2⟩ := h
        subst h1
        subst h2
        exact ⟨rfl, rfl, rfl, rfl⟩
    | none =>
        rw [hn] at h
        cases hd : env.defaultPrinter with
        | some name =>
            rw [hd] at h
            simp only [Except.ok.injEq, Prod.mk.injEq] at h
            obtain ⟨h1, h2⟩ := h
            subst h1
            subst h2
            exact ⟨rfl, rfl, rfl, rfl⟩
        | none =>
            rw [hd] at h
            simp at h
  · rw [if_neg hp] at h
    simp at h

/-- A Windows print host where every path exists and `HP` is the default. -/
def winPrintEnvHP : WinPrintEnv :=
  WinPrintEnv.mk (fun _ => true) (some (String.toList "HP"))

/-- A concrete by-path print request with no explicit printer. -/
def optionsDoc : PrintOptions :=
  PrintOptions.mk (String.toList "doc.pdf") none none none none none false

/-- Witness for C9: the concrete request on the `HP` host returns no job id,
the fixed submission message, and the pending worker's printer. -/
theorem win_print_pdf_spec_witness :
    (PrintResult.mk none (String.toList "HP")
        (String.toList "Print job submitted (async)")).job_id = none ∧
    (PrintResult.mk none (String.toList "HP")
        (String.toList "Print job submitted (async)")).message =
      String.toList "Print job submitted (async)" ∧
    (PrintResult.mk none (String.toList "HP")
        (String.toList "Print job submitted (async)")).printer =
      (PendingJob.mk optionsDoc (String.toList "HP")).printer ∧
    (PendingJob.mk optionsDoc (String.toList "HP")).options = optionsDoc :=
  win_print_pdf_spec winPrintEnvHP optionsDoc _ _ rfl
